import Mathlib

/-!
Verification of the FloodGuard tile-rendering pipeline (`tile_server.py`).

The Python source is shallowly embedded: pure helper functions become Lean
functions, the module-level GeoDataFrame cache becomes explicit state
passing, exceptions become `Except` / explicit outcome values, and the
external libraries (shapely, PIL, geopandas) are modelled by their
documented semantics at the call sites the program uses.

Numeric model: Python floats are modelled by exact rationals (for the
Mercator tile arithmetic, which is computable) and by real numbers (for
the inverse-Gudermannian latitude formulas, which use `atan`/`sinh`).
-/

/-- RGBA pixel, each channel out of 255, as used by PIL `Image.new('RGBA', ...)`. -/
def RGBA : Type := ℕ × ℕ × ℕ × ℕ

instance : DecidableEq RGBA := by
  unfold RGBA
  infer_instance

/-- A PIL image: a square pixel grid. `pix i j` is the pixel at column `i`, row `j`. -/
structure Image where
  size : ℕ
  pix : ℕ → ℕ → RGBA

/-- `Image.new('RGBA', (tile_size, tile_size), (0, 0, 0, 0))`: the fully
transparent tile produced at `tile_server.py` lines 130, 154, 158 and 291. -/
def transparent_image (tile_size : ℕ) : Image :=
  ⟨tile_size, fun _ _ => (0, 0, 0, 0)⟩

/-- Python's `str.lower()` on one character, restricted to the ASCII range the
severity keys use; identical to Lean core `Char.toLower`. -/
def pyCharLower (c : Char) : Char := c.toLower

/-- Python's `str.lower()`: lowercase every character. -/
def pyLower (s : String) : String := ⟨s.data.map pyCharLower⟩

/-- `get_severity_color` (`tile_server.py` lines 103-114).  The Python argument
can be a string or a missing/`None` value; `severity_lower` is `'low'` whenever
`severity` is falsy (`None` or the empty string), otherwise the lowercased
string.  The dict lookup with default `(200, 200, 200, 100)` becomes an
if-chain over the four (distinct) keys. -/
def get_severity_color (severity : Option String) : RGBA :=
  let severity_lower : String :=
    match severity with
    | none => "low"
    | some s => if s = "" then "low" else pyLower s
  if severity_lower = "high" then (255, 0, 0, 180)
  else if severity_lower = "medium" then (255, 165, 0, 150)
  else if severity_lower = "low" then (255, 255, 0, 120)
  else if severity_lower = "critical" then (128, 0, 128, 200)
  else (200, 200, 200, 100)

/-- Web Mercator maximum extent in meters (`tile_server.py` line 73), as the
exact value of the decimal literal `20037508.342789244`. -/
def MAX_EXTENT : ℚ := 20037508.342789244

/-- `tile_to_bbox_mercator` (`tile_server.py` lines 66-82): tile address to
Web Mercator bounding box, returned in source order `(minx, miny, maxx, maxy)`.
Float arithmetic is modelled by exact rational arithmetic. -/
def tile_to_bbox_mercator (z x y : ℕ) : ℚ × ℚ × ℚ × ℚ :=
  let n : ℚ := 2 ^ z
  let minx := ((x : ℚ) / n) * 2 * MAX_EXTENT - MAX_EXTENT
  let maxx := (((x : ℚ) + 1) / n) * 2 * MAX_EXTENT - MAX_EXTENT
  let miny := MAX_EXTENT - (((y : ℚ) + 1) / n) * 2 * MAX_EXTENT
  let maxy := MAX_EXTENT - ((y : ℚ) / n) * 2 * MAX_EXTENT
  (minx, miny, maxx, maxy)

/-- `math.degrees`: radians to degrees. -/
noncomputable def degrees (r : ℝ) : ℝ := r * (180 / Real.pi)

/-- `tile_to_bbox_wgs84` (`tile_server.py` lines 85-100): tile address to
geographic (EPSG:4326) bounding box `(minx, miny, maxx, maxy)`, latitude via
the inverse Gudermannian `atan (sinh (π * (1 - 2*k/n)))`. -/
noncomputable def tile_to_bbox_wgs84 (z x y : ℕ) : ℝ × ℝ × ℝ × ℝ :=
  let n : ℝ := 2 ^ z
  let minx := (x : ℝ) / n * 360 - 180
  let maxx := ((x : ℝ) + 1) / n * 360 - 180
  let miny_rad := Real.arctan (Real.sinh (Real.pi * (1 - 2 * ((y : ℝ) + 1) / n)))
  let maxy_rad := Real.arctan (Real.sinh (Real.pi * (1 - 2 * (y : ℝ) / n)))
  (minx, degrees miny_rad, maxx, degrees maxy_rad)

/-- Axis-aligned box in Mercator meters, as built by `shapely.geometry.box`. -/
structure MBox where
  minx : ℚ
  miny : ℚ
  maxx : ℚ
  maxy : ℚ
deriving DecidableEq

/-- The Mercator bounding box of a tile as an `MBox`
(`box(*tile_to_bbox_mercator(z, x, y))`, `tile_server.py` lines 123-124). -/
def tile_mbox (z x y : ℕ) : MBox :=
  let b := tile_to_bbox_mercator z x y
  ⟨b.1, b.2.1, b.2.2.1, b.2.2.2⟩

/-- A feature of the GeoDataFrame after reprojection to Mercator: its geometry
(modelled as the multi-point collection of its coordinates, in meters) and its
`severity` attribute. -/
structure Feature where
  geom : List (ℚ × ℚ)
  severity : Option String
deriving DecidableEq

/-- Membership of a point in a closed axis-aligned box. -/
def point_in_box (p : ℚ × ℚ) (b : MBox) : Bool :=
  decide (b.minx ≤ p.1 ∧ p.1 ≤ b.maxx ∧ b.miny ≤ p.2 ∧ p.2 ≤ b.maxy)

/-- Modelled shapely semantics of `geometry.intersects(tile_bbox)` for a
point-collection geometry against a rectangle: true iff some point of the
geometry lies in the closed box.  This is exact geometry intersection, the
predicate the source evaluates at `tile_server.py` line 147. -/
def geom_intersects_box (g : List (ℚ × ℚ)) (b : MBox) : Bool :=
  g.any (fun p => point_in_box p b)

/-- Grow a box to cover one more point (step of the envelope computation). -/
def env_extend (b : MBox) (q : ℚ × ℚ) : MBox :=
  ⟨min b.minx q.1, min b.miny q.2, max b.maxx q.1, max b.maxy q.2⟩

/-- The axis-aligned envelope (bounding box) of a geometry; for an empty
geometry an empty box is returned. -/
def envelope : List (ℚ × ℚ) → MBox
  | [] => ⟨0, 0, -1, -1⟩
  | p :: ps => ps.foldl env_extend ⟨p.1, p.2, p.1, p.2⟩

/-- Overlap of two closed axis-aligned boxes. -/
def box_overlap (a b : MBox) : Bool :=
  decide (a.minx ≤ b.maxx ∧ b.minx ≤ a.maxx ∧ a.miny ≤ b.maxy ∧ b.miny ≤ a.maxy)

/-- Membership of a point in a closed axis-aligned box, as a proposition. -/
def box_contains (b : MBox) (p : ℚ × ℚ) : Prop :=
  b.minx ≤ p.1 ∧ p.1 ≤ b.maxx ∧ b.miny ≤ p.2 ∧ p.2 ≤ b.maxy

/-- The spatial filter `gdf_mercator[gdf_mercator.intersects(tile_bbox_mercator)]`
(`tile_server.py` line 147): keep exactly the features whose geometry
intersects the tile box. -/
def filter_features (feats : List Feature) (b : MBox) : List Feature :=
  feats.filter (fun f => geom_intersects_box f.geom b)

/-- The filter as the specification describes it (selection by envelope
/ axis-aligned bounding-box intersection), for comparison with
`filter_features`. -/
def filter_features_by_envelope (feats : List Feature) (b : MBox) : List Feature :=
  feats.filter (fun f => box_overlap (envelope f.geom) b)

/-- `render_tile` (`tile_server.py` lines 117-244).  The GeoDataFrame argument
is the result of `load_geojson_to_gdf()`; `reproject` abstracts the
per-feature CRS conversion `gdf.to_crs('EPSG:3857')` (lines 133-143);
`filter_raises` says whether the `intersects` call raises, in which case the
`except` branch at lines 148-150 keeps the whole feature set; `drawAll`
abstracts the PIL drawing loop (lines 157-243), which paints the filtered
features over a transparent canvas. -/
def render_tile (drawAll : List Feature → MBox → ℕ → Image)
    (reproject : Feature → Feature) (filter_raises : Bool)
    (gdf : Option (List Feature)) (z x y : ℕ) (tile_size : ℕ) : Image :=
  let bbox := tile_mbox z x y
  match gdf with
  | none => transparent_image tile_size
  | some feats =>
    if feats.isEmpty then transparent_image tile_size
    else
      let mfeats := feats.map reproject
      let intersecting := if filter_raises then mfeats else filter_features mfeats bbox
      if intersecting.isEmpty then transparent_image tile_size
      else drawAll intersecting bbox tile_size

/-- The configuration surface `load_geojson_to_gdf` reads: whether the
module-level `DataService()` construction succeeded (`data_service is None`
otherwise), `data_service.data_source`, and the resolved
`local.geojson_path` (with its default already applied). -/
structure Config where
  data_service_ok : Bool
  data_source : String
  geojson_path : String

/-- The module-level cache globals `_gdf_cache` and `_cache_path`
(`tile_server.py` lines 27-29). -/
structure CacheState where
  gdf : Option (List Feature)
  path : Option String
deriving DecidableEq

/-- Outcome of one attempt to read the GeoJSON file: `found g` when
`os.path.exists` holds and `gpd.read_file` returns `g`; `missing` when the
file does not exist; `err` when `gpd.read_file` raises. -/
inductive LoadOutcome where
  | found (g : List Feature)
  | missing
  | err
deriving DecidableEq

/-- `load_geojson_to_gdf` (`tile_server.py` lines 32-63), with the globals as
explicit state: returns the function's result together with the new cache
state. -/
def load_geojson_to_gdf (cfg : Config) (outcome : LoadOutcome)
    (st : CacheState) : Option (List Feature) × CacheState :=
  if cfg.data_service_ok = false then (none, st)
  else if cfg.data_source ≠ "local" then (none, st)
  else
    let geojson_path := cfg.geojson_path
    if st.gdf = none ∨ st.path ≠ some geojson_path then
      match outcome with
      | .found g => (some g, ⟨some g, some geojson_path⟩)
      | .missing => (none, st)
      | .err => (none, st)
    else (st.gdf, st)

/-- Body of an HTTP response from the tile endpoint. -/
inductive Body where
  | png (img : Image)
  | text (s : String)

/-- An HTTP response: status code and body. -/
structure TSResponse where
  status : ℕ
  body : Body

/-- `get_tile` (`tile_server.py` lines 247-298).  `z`, `x`, `y` are the route
integers; `render` abstracts the outcome of `render_tile` followed by PNG
encoding (lines 271-276): `Except.error ()` when any exception is raised
inside the `try` block, in which case the handler at lines 288-298 answers
`200` with a transparent 256×256 tile. -/
def get_tile (z x y : ℤ) (render : Except Unit Image) : TSResponse :=
  if z < 0 ∨ z > 20 then ⟨400, .text "Invalid zoom level"⟩
  else
    let max_tile : ℤ := 2 ^ z.toNat
    if x < 0 ∨ x ≥ max_tile ∨ y < 0 ∨ y ≥ max_tile then
      ⟨400, .text "Invalid tile coordinates"⟩
    else
      match render with
      | .ok img => ⟨200, .png img⟩
      | .error _ => ⟨200, .png (transparent_image 256)⟩

/-- A tile address is valid when `0 ≤ z ≤ 20` and `0 ≤ x, y < 2^z`. -/
def valid_address (z x y : ℤ) : Prop :=
  0 ≤ z ∧ z ≤ 20 ∧ 0 ≤ x ∧ x < 2 ^ z.toNat ∧ 0 ≤ y ∧ y < 2 ^ z.toNat

instance (z x y : ℤ) : Decidable (valid_address z x y) := by
  unfold valid_address
  infer_instance

/-- Claim C1: for every syntactically valid tile address, any exception raised
during loading, filtering, rendering, or encoding is caught and the handler
returns a 200 response containing a fully transparent tile; no render outcome
produces a non-200 response for such an address. -/
theorem get_tile_caught (z x y : ℤ) (h : valid_address z x y) :
    (∀ render, (get_tile z x y render).status = 200) ∧
    get_tile z x y (.error ()) = ⟨200, .png (transparent_image 256)⟩ ∧
    (∀ i j, ((transparent_image 256).pix i j).2.2.2 = 0) := by
  obtain ⟨hz0, hz1, hx0, hx1, hy0, hy1⟩ := h
  refine ⟨?_, ?_, fun i j => rfl⟩
  · intro render
    unfold get_tile
    rw [if_neg (by omega), if_neg (by push_neg; omega)]
    cases render <;> rfl
  · unfold get_tile
    rw [if_neg (by omega), if_neg (by push_neg; omega)]

/-- Witness for C1 at the valid address (0, 0, 0). -/
theorem get_tile_caught_witness :
    get_tile 0 0 0 (.error ()) = ⟨200, .png (transparent_image 256)⟩ :=
  (get_tile_caught 0 0 0 (by decide)).2.1

/-- Claim C2: an out-of-bounds tile address gets a 400 plain-text response,
independent of any rendering outcome, and an in-bounds address never gets
this error. -/
theorem get_tile_invalid (z x y : ℤ) :
    (¬ valid_address z x y →
      ∀ r r2, (get_tile z x y r).status = 400 ∧
        (∃ s, (get_tile z x y r).body = .text s) ∧
        get_tile z x y r = get_tile z x y r2) ∧
    (valid_address z x y → ∀ r, (get_tile z x y r).status ≠ 400) := by
  constructor
  · intro h r r2
    unfold valid_address at h
    push_neg at h
    unfold get_tile
    by_cases hz : z < 0 ∨ z > 20
    · rw [if_pos hz, if_pos hz]
      exact ⟨rfl, ⟨_, rfl⟩, rfl⟩
    · rw [if_neg hz, if_neg hz]
      push_neg at hz
      have hxy : x < 0 ∨ x ≥ 2 ^ z.toNat ∨ y < 0 ∨ y ≥ 2 ^ z.toNat := by
        rcases lt_or_ge x 0 with hc | hc
        · exact Or.inl hc
        rcases lt_or_ge y 0 with hc2 | hc2
        · exact Or.inr (Or.inr (Or.inl hc2))
        have := h hz.1 hz.2 hc
        rcases lt_or_ge x (2 ^ z.toNat) with hc3 | hc3
        · exact Or.inr (Or.inr (Or.inr (this hc3 hc2)))
        · exact Or.inr (Or.inl hc3)
      rw [if_pos hxy, if_pos hxy]
      exact ⟨rfl, ⟨_, rfl⟩, rfl⟩
  · intro h r
    obtain ⟨hz0, hz1, hx0, hx1, hy0, hy1⟩ := h
    unfold get_tile
    rw [if_neg (by omega), if_neg (by push_neg; omega)]
    cases r <;> simp

/-- Witness for C2 at the specification's example z=5, x=32, y=0 (max index 31). -/
theorem get_tile_invalid_witness :
    (get_tile 5 32 0 (.ok (transparent_image 256))).status = 400 := by
  have h := (get_tile_invalid 5 32 0).1 (by decide)
  exact (h (.ok (transparent_image 256)) (.ok (transparent_image 256))).1

/-- Claim C3: when the cache returns no data, or the loaded feature set is
empty, or the spatial filter selects zero features, `render_tile` returns a
pixel buffer in which every pixel has alpha 0. -/
theorem render_tile_empty_transparent (drawAll : List Feature → MBox → ℕ → Image)
    (reproject : Feature → Feature) (filter_raises : Bool)
    (gdf : Option (List Feature)) (z x y tile_size : ℕ)
    (h : gdf = none ∨ gdf = some [] ∨
      (∃ feats, gdf = some feats ∧ filter_raises = false ∧
        filter_features (feats.map reproject) (tile_mbox z x y) = [])) :
    ∀ i j,
      ((render_tile drawAll reproject filter_raises gdf z x y tile_size).pix i j).2.2.2 = 0 := by
  intro i j
  rcases h with h | h | ⟨feats, hf, hraise, hfilter⟩
  · subst h
    rfl
  · subst h
    rfl
  · subst hf
    subst hraise
    simp [render_tile, hfilter, transparent_image]

/-- Witness for C3 with an absent GeoDataFrame. -/
theorem render_tile_empty_transparent_witness :
    ((render_tile (fun _ _ n => transparent_image n) id false none 0 0 0 256).pix 0 0).2.2.2
      = 0 :=
  render_tile_empty_transparent (fun _ _ n => transparent_image n) id false none 0 0 0 256
    (Or.inl rfl) 0 0

/-- Claim C4: when a reload (triggered by an empty cache or a changed source
path) fails, the cached feature set and its identifier are unchanged and the
call returns the explicit no-data signal. -/
theorem load_geojson_failure_keeps_cache (cfg : Config) (outcome : LoadOutcome)
    (st : CacheState)
    (htrig : st.gdf = none ∨ st.path ≠ some cfg.geojson_path)
    (hfail : outcome = .missing ∨ outcome = .err) :
    load_geojson_to_gdf cfg outcome st = (none, st) := by
  unfold load_geojson_to_gdf
  by_cases hs : cfg.data_service_ok = false
  · rw [if_pos hs]
  · rw [if_neg hs]
    by_cases hl : cfg.data_source ≠ "local"
    · rw [if_pos hl]
    · rw [if_neg hl, if_pos htrig]
      rcases hfail with h | h <;> subst h <;> rfl

/-- Witness for C4: a populated cache for an old path, a changed path, and a
failing read leave the cache untouched and return `none`. -/
theorem load_geojson_failure_keeps_cache_witness :
    load_geojson_to_gdf ⟨true, "local", "sample_data/floodrisk.geojson"⟩ .err
        ⟨some [⟨[(0, 0)], some "high"⟩], some "old.geojson"⟩
      = (none, ⟨some [⟨[(0, 0)], some "high"⟩], some "old.geojson"⟩) :=
  load_geojson_failure_keeps_cache ⟨true, "local", "sample_data/floodrisk.geojson"⟩ .err
    ⟨some [⟨[(0, 0)], some "high"⟩], some "old.geojson"⟩
    (Or.inr (by decide)) (Or.inr rfl)

/-- Claim C9: with a data source other than `'local'`, the loader returns the
no-data signal for every read outcome without touching the cache, and every
tile consequently renders fully transparent. -/
theorem nonlocal_source_transparent (cfg : Config) (st : CacheState)
    (h : cfg.data_source ≠ "local")
    (drawAll : List Feature → MBox → ℕ → Image) (reproject : Feature → Feature)
    (filter_raises : Bool) (z x y tile_size : ℕ) :
    (∀ outcome, load_geojson_to_gdf cfg outcome st = (none, st)) ∧
    (∀ outcome i j,
      ((render_tile drawAll reproject filter_raises
          (load_geojson_to_gdf cfg outcome st).1 z x y tile_size).pix i j).2.2.2 = 0) := by
  have hload : ∀ outcome, load_geojson_to_gdf cfg outcome st = (none, st) := by
    intro outcome
    unfold load_geojson_to_gdf
    by_cases hs : cfg.data_service_ok = false
    · rw [if_pos hs]
    · rw [if_neg hs, if_pos h]
  refine ⟨hload, fun outcome i j => ?_⟩
  rw [hload outcome]
  rfl

/-- Witness for C9 with the AWS data source. -/
theorem nonlocal_source_transparent_witness :
    load_geojson_to_gdf ⟨true, "AWS", "sample_data/floodrisk.geojson"⟩ (.found [⟨[(0, 0)], none⟩])
        ⟨none, none⟩
      = (none, ⟨none, none⟩) :=
  (nonlocal_source_transparent ⟨true, "AWS", "sample_data/floodrisk.geojson"⟩ ⟨none, none⟩
      (by decide) (fun _ _ n => transparent_image n) id false 0 0 0 256).1
    (.found [⟨[(0, 0)], none⟩])

/-- `Char.ofNat` round-trips on valid code points. -/
theorem toNat_ofNat_valid {n : ℕ} (h : n.isValidChar) : (Char.ofNat n).toNat = n := by
  unfold Char.ofNat
  rw [dif_pos h]
  rfl

/-- ASCII lowercasing of one character is idempotent. -/
theorem pyCharLower_idem (c : Char) : pyCharLower (pyCharLower c) = pyCharLower c := by
  unfold pyCharLower Char.toLower
  by_cases h : c.toNat ≥ 65 ∧ c.toNat ≤ 90
  · rw [if_pos h]
    have hv : (c.toNat + 32).isValidChar := Or.inl (by omega)
    rw [if_neg]
    rw [toNat_ofNat_valid hv]
    omega
  · simp only [if_neg h]

/-- Lowercasing a string is idempotent. -/
theorem pyLower_idem (s : String) : pyLower (pyLower s) = pyLower s := by
  unfold pyLower
  simp [List.map_map, Function.comp_def, pyCharLower_idem]

/-- Lowercasing preserves non-emptiness. -/
theorem pyLower_ne_empty (s : String) (h : s ≠ "") : pyLower s ≠ "" := by
  intro hc
  apply h
  unfold pyLower at hc
  cases s with
  | mk data =>
    cases data with
    | nil => rfl
    | cons c cs => simp [String.ext_iff] at hc

/-- Counterexample to claim C6 as stated: a missing severity value resolves to
the low color (255, 255, 0, 120), not to the unrecognized-value color
(200, 200, 200, 100). -/
theorem get_severity_color_missing_cex :
    get_severity_color none = (255, 255, 0, 120) ∧
    get_severity_color none ≠ (200, 200, 200, 100) := by
  constructor
  · rfl
  · intro h
    have : ((255, 255, 0, 120) : ℕ × ℕ × ℕ × ℕ) = (200, 200, 200, 100) := h
    simp at this

/-- Claim C6 (amended): `'critical'`, `'high'`, `'medium'`, `'low'` map to
their table colors; an unrecognized non-empty severity maps to
(200, 200, 200, 100); a missing or empty (falsy) severity is treated as
`'low'` and maps to (255, 255, 0, 120). -/
theorem get_severity_color_table :
    get_severity_color (some "critical") = (128, 0, 128, 200) ∧
    get_severity_color (some "high") = (255, 0, 0, 180) ∧
    get_severity_color (some "medium") = (255, 165, 0, 150) ∧
    get_severity_color (some "low") = (255, 255, 0, 120) ∧
    get_severity_color none = (255, 255, 0, 120) ∧
    get_severity_color (some "") = (255, 255, 0, 120) ∧
    ∀ s : String, s ≠ "" → pyLower s ≠ "critical" → pyLower s ≠ "high" →
      pyLower s ≠ "medium" → pyLower s ≠ "low" →
      get_severity_color (some s) = (200, 200, 200, 100) := by
  refine ⟨by decide, by decide, by decide, by decide, rfl, rfl, ?_⟩
  intro s h1 h2 h3 h4 h5
  simp [get_severity_color, h1, h2, h3, h4, h5]

/-- Witness for the amended C6 at the unrecognized severity `'unknown'`. -/
theorem get_severity_color_table_witness :
    get_severity_color (some "unknown") = (200, 200, 200, 100) :=
  get_severity_color_table.2.2.2.2.2.2 "unknown" (by decide) (by decide) (by decide)
    (by decide) (by decide)

/-- Claim C10: severity resolution is case-insensitive: every severity string
resolves to the same color as its lowercase form, so `'HIGH'`, `'High'` and
`'high'` all resolve to (255, 0, 0, 180). -/
theorem get_severity_color_case_insensitive :
    (∀ s : String, get_severity_color (some s) = get_severity_color (some (pyLower s))) ∧
    get_severity_color (some "HIGH") = (255, 0, 0, 180) ∧
    get_severity_color (some "High") = (255, 0, 0, 180) ∧
    get_severity_color (some "high") = (255, 0, 0, 180) := by
  refine ⟨?_, by decide, by decide, by decide⟩
  intro s
  by_cases h : s = ""
  · subst h
    rfl
  · have hne := pyLower_ne_empty s h
    unfold get_severity_color
    simp only [if_neg h, if_neg hne, pyLower_idem]

/-- Claim C5: for every valid tile address the Mercator bounding box equals
the specified formulas with `E = 20037508.342789244` and `n = 2^z`, and both
the Mercator and the geographic bounding boxes satisfy minX < maxX and
minY < maxY. -/
theorem tile_bbox_valid (z x y : ℕ) (hz : z ≤ 20) (hx : x < 2 ^ z) (hy : y < 2 ^ z) :
    tile_to_bbox_mercator z x y =
      ((x : ℚ) / 2 ^ z * 2 * MAX_EXTENT - MAX_EXTENT,
       MAX_EXTENT - ((y : ℚ) + 1) / 2 ^ z * 2 * MAX_EXTENT,
       ((x : ℚ) + 1) / 2 ^ z * 2 * MAX_EXTENT - MAX_EXTENT,
       MAX_EXTENT - (y : ℚ) / 2 ^ z * 2 * MAX_EXTENT) ∧
    (tile_to_bbox_mercator z x y).1 < (tile_to_bbox_mercator z x y).2.2.1 ∧
    (tile_to_bbox_mercator z x y).2.1 < (tile_to_bbox_mercator z x y).2.2.2 ∧
    (tile_to_bbox_wgs84 z x y).1 < (tile_to_bbox_wgs84 z x y).2.2.1 ∧
    (tile_to_bbox_wgs84 z x y).2.1 < (tile_to_bbox_wgs84 z x y).2.2.2 := by
  have hE : (0 : ℚ) < MAX_EXTENT := by norm_num [MAX_EXTENT]
  have hn : (0 : ℚ) < 2 ^ z := by positivity
  have hnr : (0 : ℝ) < 2 ^ z := by positivity
  refine ⟨rfl, ?_, ?_, ?_, ?_⟩
  · show ((x : ℚ) / 2 ^ z) * 2 * MAX_EXTENT - MAX_EXTENT
      < (((x : ℚ) + 1) / 2 ^ z) * 2 * MAX_EXTENT - MAX_EXTENT
    gcongr
    linarith
  · show MAX_EXTENT - (((y : ℚ) + 1) / 2 ^ z) * 2 * MAX_EXTENT
      < MAX_EXTENT - ((y : ℚ) / 2 ^ z) * 2 * MAX_EXTENT
    gcongr
    linarith
  · show (x : ℝ) / 2 ^ z * 360 - 180 < ((x : ℝ) + 1) / 2 ^ z * 360 - 180
    gcongr
    linarith
  · show degrees (Real.arctan (Real.sinh (Real.pi * (1 - 2 * ((y : ℝ) + 1) / 2 ^ z))))
      < degrees (Real.arctan (Real.sinh (Real.pi * (1 - 2 * (y : ℝ) / 2 ^ z))))
    unfold degrees
    have hpi := Real.pi_pos
    apply mul_lt_mul_of_pos_right
    · apply Real.arctan_strictMono
      apply Real.sinh_lt_sinh.mpr
      apply mul_lt_mul_of_pos_left _ hpi
      have : 2 * (y : ℝ) / 2 ^ z < 2 * ((y : ℝ) + 1) / 2 ^ z := by
        gcongr
        linarith
      linarith
    · positivity

/-- Witness for C5 at the tile (0, 0, 0). -/
theorem tile_bbox_valid_witness :
    (tile_to_bbox_mercator 0 0 0).1 < (tile_to_bbox_mercator 0 0 0).2.2.1 :=
  (tile_bbox_valid 0 0 0 (by norm_num) (by norm_num) (by norm_num)).2.1

/-- Claim C8: horizontally adjacent tiles share an exact boundary coordinate:
maxX of tile (z, x, y) equals minX of tile (z, x+1, y). -/
theorem adjacent_tiles_share_boundary (z x y : ℕ) (hz : z ≤ 20) (hx : x < 2 ^ z - 1)
    (hy : y < 2 ^ z) :
    (tile_to_bbox_mercator z x y).2.2.1 = (tile_to_bbox_mercator z (x + 1) y).1 := by
  show (((x : ℚ) + 1) / 2 ^ z) * 2 * MAX_EXTENT - MAX_EXTENT
    = (((x + 1 : ℕ) : ℚ) / 2 ^ z) * 2 * MAX_EXTENT - MAX_EXTENT
  push_cast
  ring

/-- Witness for C8 at z = 1, x = 0, y = 0. -/
theorem adjacent_tiles_share_boundary_witness :
    (tile_to_bbox_mercator 1 0 0).2.2.1 = (tile_to_bbox_mercator 1 1 0).1 :=
  adjacent_tiles_share_boundary 1 0 0 (by norm_num) (by norm_num) (by norm_num)

/-- Folding the envelope extension keeps any point the initial box contains. -/
theorem foldl_env_contains_init (ps : List (ℚ × ℚ)) (b : MBox) (p : ℚ × ℚ)
    (h : box_contains b p) : box_contains (ps.foldl env_extend b) p := by
  induction ps generalizing b with
  | nil => exact h
  | cons q qs ih =>
    apply ih
    obtain ⟨h1, h2, h3, h4⟩ := h
    exact ⟨le_trans (min_le_left _ _) h1, le_trans h2 (le_max_left _ _),
      le_trans (min_le_left _ _) h3, le_trans h4 (le_max_left _ _)⟩

/-- Folding the envelope extension covers every folded point. -/
theorem foldl_env_contains_mem (ps : List (ℚ × ℚ)) (b : MBox) (q : ℚ × ℚ)
    (h : q ∈ ps) : box_contains (ps.foldl env_extend b) q := by
  induction ps generalizing b with
  | nil => cases h
  | cons r rs ih =>
    rw [List.foldl_cons]
    rcases List.mem_cons.mp h with h | h
    · subst h
      refine foldl_env_contains_init rs (env_extend b q) q ?_
      unfold box_contains env_extend
      refine ⟨?_, ?_, ?_, ?_⟩ <;> simp
    · exact ih (env_extend b r) h

/-- The envelope of a geometry contains each of its points. -/
theorem envelope_contains_mem (g : List (ℚ × ℚ)) (p : ℚ × ℚ) (h : p ∈ g) :
    box_contains (envelope g) p := by
  cases g with
  | nil => cases h
  | cons r rs =>
    rcases List.mem_cons.mp h with h | h
    · subst h
      exact foldl_env_contains_init rs _ _ ⟨le_refl _, le_refl _, le_refl _, le_refl _⟩
    · exact foldl_env_contains_mem rs _ _ h

/-- Exact geometry intersection with a box implies envelope overlap with it. -/
theorem geom_intersects_imp_envelope_overlap (g : List (ℚ × ℚ)) (b : MBox)
    (h : geom_intersects_box g b = true) : box_overlap (envelope g) b = true := by
  unfold geom_intersects_box at h
  rw [List.any_eq_true] at h
  obtain ⟨p, hp, hpb⟩ := h
  have hc := envelope_contains_mem g p hp
  unfold point_in_box at hpb
  rw [decide_eq_true_eq] at hpb
  unfold box_overlap
  rw [decide_eq_true_eq]
  obtain ⟨e1, e2, e3, e4⟩ := hc
  obtain ⟨p1, p2, p3, p4⟩ := hpb
  exact ⟨le_trans e1 p2, le_trans p1 e2, le_trans e3 p4, le_trans p3 e4⟩

/-- Counterexample to claim C7 as stated: a two-point geometry at (0, 2) and
(2, 0) against the tile box [0, 1] × [0, 1] — its envelope intersects the box,
the envelope-based filter keeps it, but the implemented filter omits it. -/
theorem filter_features_envelope_cex :
    filter_features [⟨[(0, 2), (2, 0)], none⟩] ⟨0, 0, 1, 1⟩ = [] ∧
    box_overlap (envelope [((0 : ℚ), (2 : ℚ)), (2, 0)]) ⟨0, 0, 1, 1⟩ = true ∧
    filter_features_by_envelope [⟨[(0, 2), (2, 0)], none⟩] ⟨0, 0, 1, 1⟩
      = [⟨[(0, 2), (2, 0)], none⟩] := by
  refine ⟨?_, ?_, ?_⟩ <;> decide

/-- Claim C7 (amended): the spatial filter returns exactly the subset of
features whose geometry intersects the tile's Mercator bounding box — exact
geometry intersection, not envelope intersection, is the selection criterion;
every selected feature's envelope intersects the tile box, but a feature
whose envelope intersects the box while its geometry does not is omitted. -/
theorem filter_features_exact_geometry (feats : List Feature) (b : MBox) :
    (∀ f, f ∈ filter_features feats b ↔ f ∈ feats ∧ geom_intersects_box f.geom b = true) ∧
    (∀ f, f ∈ filter_features feats b → box_overlap (envelope f.geom) b = true) := by
  constructor
  · intro f
    simp [filter_features, List.mem_filter]
  · intro f hf
    unfold filter_features at hf
    rw [List.mem_filter] at hf
    exact geom_intersects_imp_envelope_overlap _ _ hf.2

/-- Witness for the amended C7: a feature the filter keeps has an envelope
overlapping the tile box. -/
theorem filter_features_exact_geometry_witness :
    box_overlap (envelope [((0 : ℚ), (0 : ℚ))]) ⟨0, 0, 1, 1⟩ = true :=
  (filter_features_exact_geometry [⟨[(0, 0)], none⟩] ⟨0, 0, 1, 1⟩).2
    ⟨[(0, 0)], none⟩ (by decide)
